import Mathlib

/-!
Verification development for the klarfkit `WaferMap` data model and its
KLARF reader (`src/klarfkit/klarfkit.py`).  The Python code is shallowly
embedded: pandas DataFrames become association lists from column names to
rational-number columns, Python floats become exact rationals (the spec's
coordinate identities are stated "up to floating-point tolerance"; we prove
them exactly over ℚ), and raising an exception becomes returning
`Except.error`.  String handling mirrors Python `str` methods on ASCII
text (Python's `str.upper`/`float()` unicode, exponent, `inf`/`nan` and
underscore-literal corner cases are outside the inputs exercised here).
-/

namespace Klarfkit

/-- Whitespace trim from both ends of a character list: Python `str.strip()`. -/
def trimWs (l : List Char) : List Char :=
  ((l.dropWhile Char.isWhitespace).reverse.dropWhile Char.isWhitespace).reverse

/-- Strip the double-quote character from both ends: Python `str.strip('"')`. -/
def stripQuote (l : List Char) : List Char :=
  ((l.dropWhile (· == '"')).reverse.dropWhile (· == '"')).reverse

/-- Does the first list start the second one? -/
def startsWithL : List Char → List Char → Bool
  | [], _ => true
  | _ :: _, [] => false
  | a :: as, b :: bs => a == b && startsWithL as bs

/-- Substring containment on character lists. -/
def containsSubL (needle : List Char) : List Char → Bool
  | [] => needle.isEmpty
  | c :: rest => startsWithL needle (c :: rest) || containsSubL needle rest

/-- Model of the Python test `needle in hay` on strings. -/
def pyIn (needle hay : String) : Bool :=
  containsSubL needle.toList hay.toList

/-- Split on characters satisfying `p`, keeping empty fields. -/
def splitPred (p : Char → Bool) : List Char → List (List Char)
  | [] => [[]]
  | c :: rest =>
    let r := splitPred p rest
    if p c then [] :: r
    else
      match r with
      | [] => [[c]]
      | h :: t => (c :: h) :: t

/-- Python `s.split(" ")`: split on single spaces, keeping empty fields. -/
def pySplitSpace (s : String) : List String :=
  (splitPred (· == ' ') s.toList).map String.mk

/-- Python `s.split()`: split on whitespace runs, discarding empty fields. -/
def pySplitWs (s : String) : List String :=
  ((splitPred Char.isWhitespace s.toList).filter (fun w => !w.isEmpty)).map String.mk

/-- Split a character list at the first occurrence of `sep`, if any. -/
def splitOnceAux (sep : Char) : List Char → Option (List Char × List Char)
  | [] => none
  | c :: rest =>
    if c == sep then some ([], rest)
    else (splitOnceAux sep rest).map (fun pr => (c :: pr.1, pr.2))

/-- Model of the reader's helper `get_row_value`:
`row.split(" ", maxsplit=1)[-1].strip('"')`. -/
def getRowValue (row : String) : String :=
  let l := row.toList
  let tail :=
    match splitOnceAux ' ' l with
    | some pr => pr.2
    | none => l
  String.mk (stripQuote tail)

/-- Python `s.split(" ")[-1]`. -/
def lastSpaceTok (s : String) : String :=
  (pySplitSpace s).getLastD ""

/-- Python `s.replace(c, "")`: removing every occurrence of one character. -/
def removeChar (c : Char) (s : String) : String :=
  String.mk (s.toList.filter (fun a => !(a == c)))

/-- The per-line cleanup done by `read_klarf`:
`i.strip().replace(';','').replace('"','')`. -/
def cleanLine (s : String) : String :=
  removeChar '"' (removeChar ';' (String.mk (trimWs s.toList)))

/-- Python `str.upper()` (ASCII model). -/
def pyUpper (s : String) : String :=
  String.mk (s.toList.map Char.toUpper)

/-- Python `i[:-1]`: drop the final character. -/
def dropLastChar (s : String) : String :=
  String.mk s.toList.dropLast

/-- Value of a nonempty all-digit character list. -/
def digitsVal (l : List Char) : Option ℕ :=
  if l.isEmpty then none
  else if l.all Char.isDigit then
    some (l.foldl (fun n c => 10 * n + (c.toNat - 48)) 0)
  else none

/-- Model of Python `float()` on plain decimal literals (optional sign,
digits, optional fractional part).  Exponent forms are not modeled; no
input in this development uses them. -/
def pyFloat (s : String) : Option ℚ :=
  let core : List Char → Option ℚ := fun l =>
    match splitOnceAux '.' l with
    | none => (digitsVal l).map (fun n => (n : ℚ))
    | some pr =>
      if pr.1.isEmpty && pr.2.isEmpty then none
      else
        match (if pr.1.isEmpty then some 0 else digitsVal pr.1),
              (if pr.2.isEmpty then some 0 else digitsVal pr.2) with
        | some a, some b =>
          some ((a : ℚ) + (b : ℚ) / ((10 ^ pr.2.length : ℕ) : ℚ))
        | _, _ => none
  match trimWs s.toList with
  | '+' :: rest => core rest
  | '-' :: rest => (core rest).map (fun q => -q)
  | l => core l

/-- Model of Python `int()` on plain decimal literals. -/
def pyInt (s : String) : Option ℤ :=
  match trimWs s.toList with
  | '+' :: rest => (digitsVal rest).map (fun n => (n : ℤ))
  | '-' :: rest => (digitsVal rest).map (fun n => -(n : ℤ))
  | l => (digitsVal l).map (fun n => (n : ℤ))

/-- Python float floor division `a // b` (exact-rational model). -/
def pyFloorDiv (a b : ℚ) : ℤ := (a / b).floor

/-- Python float modulo `a % b`, which takes the sign of the divisor:
`a - b * floor(a / b)`. -/
def pyMod (a b : ℚ) : ℚ := a - b * (pyFloorDiv a b : ℚ)

/-- The exceptions the embedded code can raise.  `keyError` is a pandas
column lookup failure, `typeError` is subscripting `None`,
`zeroDivisionError` is scalar division by zero, `valueError` is a failed
`float()`/`int()` conversion or tuple unpacking, `invalidEnum` is the
`ValueError` raised for a bad orientation marker, `shapeError` is the
pandas `DataFrame` constructor rejecting a row whose width differs from
the column list, and `indexError` is indexing a too-short pitch/center
sequence. -/
inductive KError where
  | keyError (name : String)
  | typeError
  | zeroDivisionError
  | valueError (tok : String)
  | invalidEnum (marker : String)
  | shapeError
  | indexError
  deriving DecidableEq

/-- Is an `Except` outcome a success? -/
def exceptIsOk {ε α : Type} : Except ε α → Bool
  | .ok _ => true
  | .error _ => false

/-- Column-oriented model of a pandas `DataFrame` holding float cells:
an ordered association list from column names to columns of rationals. -/
structure DataFrame where
  items : List (String × List ℚ)
  deriving DecidableEq

/-- Column lookup, `df[name]`: the first column with the given name. -/
def DataFrame.getCol (df : DataFrame) (name : String) : Option (List ℚ) :=
  (df.items.find? (fun p => p.1 == name)).map (·.2)

/-- Replace the first column named `name`, or append a new one at the end:
pandas column assignment `df[name] = values`. -/
def setColItems (name : String) (v : List ℚ) :
    List (String × List ℚ) → List (String × List ℚ)
  | [] => [(name, v)]
  | p :: rest =>
    if p.1 == name then (name, v) :: rest else p :: setColItems name v rest

/-- Column assignment on the frame. -/
def DataFrame.setCol (df : DataFrame) (name : String) (v : List ℚ) : DataFrame :=
  ⟨setColItems name v df.items⟩

/-- Column values with the empty list standing for a missing column. -/
def DataFrame.colD (df : DataFrame) (name : String) : List ℚ :=
  (df.getCol name).getD []

/-- A timestamp value: either parsed from the file via `datetime.strptime`
(modeled abstractly by the raw text) or `datetime.now()` (modeled by the
clock value passed to the constructor). -/
inductive TimeVal where
  | parsed (s : String)
  | current (t : ℕ)
  deriving DecidableEq

/-- A Python scalar that is an int by default but a string when it came
from the file (the reader stores `Slot` values as text). -/
inductive PyVal where
  | pInt (n : ℤ)
  | pStr (s : String)
  deriving DecidableEq

/-- The state of a `WaferMap` object: exactly the attributes
`WaferMap.__init__` assigns.  `die_pitch`, `die_origin` and
`center_location` are stored as pairs; the code stores the raw two-element
sequence and only ever reads indices 0 and 1. -/
structure WaferMap where
  die_pitch : ℚ × ℚ
  sample_size : ℚ
  die_origin : ℚ × ℚ
  center_location : ℚ × ℚ
  defect_list : Option DataFrame
  file_version : String
  file_timestamp : TimeVal
  inspection_station : String
  sample_type : String
  result_timestamp : TimeVal
  lot_id : String
  setup_id : Option String
  step_id : Option String
  orientation_marker : String
  orientation : String
  class_lookup : Option (List (ℤ × String))
  sample_test_plan : Option (List (List ℤ))
  wafer_id : String
  slot : PyVal
  deriving DecidableEq

/-- Model of `WaferMap._calculate_actual_locations` (source lines 157-159):

  df['_XACTUAL'] = (df['XINDEX'] * pitch[0]) + df['XREL'] - center[0]
  df['_YACTUAL'] = (df['YINDEX'] * pitch[1]) + df['YREL'] - center[1]

Lookups happen left to right, so a missing column surfaces as the
corresponding `KeyError`. -/
def calculate_actual_locations (df : DataFrame) (pitch center : ℚ × ℚ) :
    Except KError DataFrame :=
  match df.getCol "XINDEX" with
  | none => .error (.keyError "XINDEX")
  | some xi =>
    match df.getCol "XREL" with
    | none => .error (.keyError "XREL")
    | some xr =>
      let df1 := df.setCol "_XACTUAL"
        (List.zipWith (fun a b => a * pitch.1 + b - center.1) xi xr)
      match df1.getCol "YINDEX" with
      | none => .error (.keyError "YINDEX")
      | some yi =>
        match df1.getCol "YREL" with
        | none => .error (.keyError "YREL")
        | some yr =>
          .ok (df1.setCol "_YACTUAL"
            (List.zipWith (fun a b => a * pitch.2 + b - center.2) yi yr))

/-- Model of `WaferMap._update_relative_coordinates` (source lines 161-169).
The code first computes `scale_x = new_pitch[0]/old_pitch[0]` and
`scale_y` (both unused afterwards; only their possible
`ZeroDivisionError` matters), then rewrites the four derived columns from
`_XACTUAL`/`_YACTUAL` in place:

  XREL   = (_XACTUAL + new_center[0]) % new_pitch[0]
  YREL   = (_YACTUAL + new_center[1]) % new_pitch[1]
  XINDEX = floor((_XACTUAL + new_center[0]) / new_pitch[0]) cast to int
  YINDEX = floor((_YACTUAL + new_center[1]) / new_pitch[1]) cast to int

Subscripting a `None` defect list raises `TypeError`.  A zero new pitch
also aborts the update in the code (pandas propagates NaN through `% 0`
and the `astype(int)` cast then raises); it is modeled by the zero checks
before each division. -/
def update_relative_coordinates (w : WaferMap)
    (old_die_pitch new_die_pitch old_center new_center : ℚ × ℚ) :
    Except KError WaferMap :=
  if old_die_pitch.1 = 0 then .error .zeroDivisionError
  else if old_die_pitch.2 = 0 then .error .zeroDivisionError
  else
    match w.defect_list with
    | none => .error .typeError
    | some df0 =>
      match df0.getCol "_XACTUAL" with
      | none => .error (.keyError "_XACTUAL")
      | some ax =>
        if new_die_pitch.1 = 0 then .error .zeroDivisionError
        else
          let df1 := df0.setCol "XREL"
            (ax.map (fun a => pyMod (a + new_center.1) new_die_pitch.1))
          match df1.getCol "_YACTUAL" with
          | none => .error (.keyError "_YACTUAL")
          | some ay =>
            if new_die_pitch.2 = 0 then .error .zeroDivisionError
            else
              let df2 := df1.setCol "YREL"
                (ay.map (fun a => pyMod (a + new_center.2) new_die_pitch.2))
              match df2.getCol "_XACTUAL" with
              | none => .error (.keyError "_XACTUAL")
              | some ax2 =>
                let df3 := df2.setCol "XINDEX"
                  (ax2.map (fun a =>
                    (pyFloorDiv (a + new_center.1) new_die_pitch.1 : ℚ)))
                match df3.getCol "_YACTUAL" with
                | none => .error (.keyError "_YACTUAL")
                | some ay2 =>
                  let df4 := df3.setCol "YINDEX"
                    (ay2.map (fun a =>
                      (pyFloorDiv (a + new_center.2) new_die_pitch.2 : ℚ)))
                  .ok { w with defect_list := some df4 }

/-- Model of the `die_pitch` property setter (source lines 129-133).  The
guard `if self._die_pitch:` is always taken here because a pitch pair is
truthy in Python.  An exception leaves the object untouched: the
assignment `self._die_pitch = value` only runs after the update
succeeded. -/
def set_die_pitch (w : WaferMap) (value : ℚ × ℚ) : Except KError WaferMap :=
  match update_relative_coordinates w w.die_pitch value
      w.center_location w.center_location with
  | .error e => .error e
  | .ok w1 => .ok { w1 with die_pitch := value }

/-- Model of the `center_location` property setter (source lines 147-151);
the guard `if self._center_location:` is always taken for a pair. -/
def set_center_location (w : WaferMap) (value : ℚ × ℚ) : Except KError WaferMap :=
  match update_relative_coordinates w w.die_pitch w.die_pitch
      w.center_location value with
  | .error e => .error e
  | .ok w1 => .ok { w1 with center_location := value }

/-- Model of the `die_origin` property setter (source lines 139-141): a
plain assignment with no side effects. -/
def set_die_origin (w : WaferMap) (value : ℚ × ℚ) : WaferMap :=
  { w with die_origin := value }

/-- The keyword arguments `read_klarf` can pass to the constructor; `none`
means the keyword was absent from the input so the parameter default of
`WaferMap.__init__` applies. -/
structure Payload where
  defect_record : Option DataFrame := none
  sample_center_location : Option (List ℚ) := none
  die_pitch : Option (List ℚ) := none
  die_origin : Option (List ℚ) := none
  sample_test_plan : Option (List (List ℤ)) := none
  orientation_marker : Option String := none
  orientation : Option String := none
  class_lookup : Option (List (ℤ × String)) := none
  inspection_test : Option String := none
  area_per_test : Option ℚ := none
  file_version : Option String := none
  file_timestamp : Option String := none
  inspection_station : Option String := none
  sample_type : Option String := none
  result_timestamp : Option String := none
  lot_id : Option String := none
  sample_size : Option ℚ := none
  setup_id : Option String := none
  step_id : Option String := none
  wafer_id : Option String := none
  slot : Option String := none
  deriving DecidableEq

/-- Reading indices 0 and 1 of a pitch/origin/center sequence; a sequence
shorter than two raises `IndexError` at its first use. -/
def pairOfList (l : List ℚ) : Except KError (ℚ × ℚ) :=
  match l with
  | x :: y :: _ => .ok (x, y)
  | _ => .error .indexError

/-- Timestamp handling of `__init__`: a truthy (non-empty) string is
parsed with `strptime`, otherwise `datetime.now()` is used. -/
def timeValOf (src : Option String) (now : ℕ) : TimeVal :=
  match src with
  | some s => if s = "" then .current now else .parsed s
  | none => .current now

/-- Model of `WaferMap.__init__` (source lines 76-115).  Notable points:
the actual locations are computed (and can raise) before the orientation
marker is validated; an `orientation_marker` whose upper-casing is neither
NOTCH nor FLAT raises `ValueError`; the `inspection_test` and
`area_per_test` parameters are accepted (defaults 1 and None) but never
assigned to `self`, so they do not appear in the resulting state. -/
def mkWaferMap (p : Payload) (now : ℕ) : Except KError WaferMap :=
  match pairOfList (p.die_pitch.getD [10000, 10000]) with
  | .error e => .error e
  | .ok die_pitch =>
    match pairOfList (p.die_origin.getD [0, 0]) with
    | .error e => .error e
    | .ok die_origin =>
      match pairOfList (p.sample_center_location.getD [150000, 150000]) with
      | .error e => .error e
      | .ok center_location =>
        match (match p.defect_record with
               | some df =>
                 Except.map some (calculate_actual_locations df die_pitch center_location)
               | none => .ok none) with
        | .error e => .error e
        | .ok defect_list =>
          let marker := p.orientation_marker.getD "NOTCH"
          if pyUpper marker = "NOTCH" ∨ pyUpper marker = "FLAT" then
            .ok { die_pitch, die_origin, center_location, defect_list,
                  sample_size := p.sample_size.getD 300000,
                  file_version := p.file_version.getD "1 1",
                  file_timestamp := timeValOf p.file_timestamp now,
                  inspection_station := p.inspection_station.getD "\"klarfkit\" \"v0.0.4\"",
                  sample_type := p.sample_type.getD "WAFER",
                  result_timestamp := timeValOf p.result_timestamp now,
                  lot_id := p.lot_id.getD "XXXX",
                  setup_id := p.setup_id,
                  step_id := p.step_id,
                  orientation_marker := pyUpper marker,
                  orientation := p.orientation.getD "DOWN",
                  class_lookup := p.class_lookup,
                  sample_test_plan := p.sample_test_plan,
                  wafer_id := p.wafer_id.getD "XXXXXXXXXXX",
                  slot := match p.slot with | some s => .pStr s | none => .pInt 1 }
          else .error (.invalidEnum (pyUpper marker))

/-- The attribute names `WaferMap.__init__` assigns on `self` (source
lines 81-115).  The `inspection_test` and `area_per_test` parameters are
not in this list: the constructor accepts them but never stores them. -/
def wafermap_assigned_attributes : List String :=
  ["_die_pitch", "_sample_size", "_die_origin", "_center_location",
   "_defect_list", "file_version", "file_timestamp", "inspection_station",
   "sample_type", "result_timestamp", "lot_id", "setup_id", "step_id",
   "orientation_marker", "orientation", "class_lookup", "sample_test_plan",
   "wafer_id", "slot"]

/-- Whether a constructed `WaferMap` object carries an attribute of the
given name. -/
def WaferMap.hasAttr (_ : WaferMap) (name : String) : Bool :=
  wafermap_assigned_attributes.contains name

/-- The loop state of `read_klarf` (source lines 239-258): the payload
under construction, the column-name and defect-row buffers, the class
lookup dictionary, the sample-plan buffer, the three collection flags and
the row counters.  `nrows`/`count_rows` start uninitialized in Python and
are only read after a `ClassLookup`/`SampleTestPlan` line set them; 0 is
a harmless stand-in for the uninitialized state. -/
structure ParseState where
  payload : Payload := {}
  cols : List String := []
  defects : List (List String) := []
  class_lookup : List (ℤ × String) := []
  sample_test_plan : List (List ℤ) := []
  defect_collect : Bool := false
  sample_plan_collect : Bool := false
  classes_collect : Bool := false
  nrows : ℤ := 0
  count_rows : ℤ := 0
  deriving DecidableEq

/-- The initial loop state. -/
def initState : ParseState := {}

/-- Python dict assignment `d[k] = v` on an insertion-ordered dict. -/
def dictInsert (d : List (ℤ × String)) (k : ℤ) (v : String) : List (ℤ × String) :=
  match d with
  | [] => [(k, v)]
  | p :: rest => if p.1 = k then (k, v) :: rest else p :: dictInsert rest k v

/-- One iteration of the `for i in data` loop of `read_klarf` (source
lines 262-358): the `elif` chain classifies the cleaned line by substring
containment, in the exact source order, falling through to the three
collection modes and finally to silently ignoring the line.  A failed
`float()`/`int()` conversion or tuple unpacking raises `ValueError`. -/
def step (st : ParseState) (i : String) : Except KError ParseState :=
  if pyIn "FileVersion" i then
    .ok { st with payload := { st.payload with file_version := some (getRowValue i) } }
  else if pyIn "FileTimestamp" i then
    .ok { st with payload := { st.payload with file_timestamp := some (getRowValue i) } }
  else if pyIn "InspectionStationID" i then
    .ok { st with payload := { st.payload with inspection_station := some (getRowValue i) } }
  else if pyIn "SampleType" i then
    .ok { st with payload := { st.payload with sample_type := some (getRowValue i) } }
  else if pyIn "ResultTimestamp" i then
    .ok { st with payload := { st.payload with result_timestamp := some (getRowValue i) } }
  else if pyIn "LotID" i then
    .ok { st with payload := { st.payload with lot_id := some (getRowValue i) } }
  else if pyIn "SampleSize" i then
    match pyFloat (lastSpaceTok i) with
    | some q =>
      .ok { st with payload := { st.payload with sample_size := some (q * 1000) } }
    | none => .error (.valueError (lastSpaceTok i))
  else if pyIn "SetupID" i then
    .ok { st with payload := { st.payload with setup_id := some (getRowValue i) } }
  else if pyIn "StepID" i then
    .ok { st with payload := { st.payload with step_id := some (getRowValue i) } }
  else if pyIn "OrientationMarkType" i then
    .ok { st with payload := { st.payload with orientation_marker := some (getRowValue i) } }
  else if pyIn "OrientationMarkLocation" i then
    .ok { st with payload := { st.payload with orientation := some (getRowValue i) } }
  else if pyIn "DiePitch" i then
    match ((pySplitSpace i).drop 1).mapM pyFloat with
    | some qs =>
      .ok { st with payload := { st.payload with die_pitch := some qs } }
    | none => .error (.valueError i)
  else if pyIn "DieOrigin" i then
    match ((pySplitSpace i).drop 1).mapM pyFloat with
    | some qs =>
      .ok { st with payload := { st.payload with die_origin := some qs } }
    | none => .error (.valueError i)
  else if pyIn "WaferID" i then
    .ok { st with payload := { st.payload with wafer_id := some (getRowValue i) } }
  else if pyIn "Slot" i then
    .ok { st with payload := { st.payload with slot := some (getRowValue i) } }
  else if pyIn "CenterLocation" i then
    match ((pySplitSpace i).drop 1).mapM pyFloat with
    | some qs =>
      .ok { st with payload := { st.payload with sample_center_location := some qs } }
    | none => .error (.valueError i)
  else if pyIn "ClassLookup" i then
    match pyInt (getRowValue i) with
    | some n => .ok { st with nrows := n, count_rows := 0, classes_collect := true }
    | none => .error (.valueError (getRowValue i))
  else if pyIn "InspectionTest" i then
    .ok { st with payload := { st.payload with inspection_test := some (getRowValue i) } }
  else if pyIn "SampleTestPlan" i then
    match pyInt ((pySplitWs i).getLastD "") with
    | some n => .ok { st with nrows := n, count_rows := 0, sample_plan_collect := true }
    | none => .error (.valueError ((pySplitWs i).getLastD ""))
  else if pyIn "AreaPerTest" i then
    match pyFloat (getRowValue i) with
    | some q =>
      .ok { st with payload := { st.payload with area_per_test := some q } }
    | none => .error (.valueError (getRowValue i))
  else if pyIn "DefectRecordSpec" i then
    .ok { st with cols := st.cols ++ (pySplitWs (dropLastChar i)).drop 2 }
  else if pyIn "DefectList" i then
    .ok { st with defect_collect := true }
  else if pyIn "SummarySpec" i then
    .ok { st with defect_collect := false }
  else if st.defect_collect then
    .ok { st with defects := st.defects ++ [pySplitWs (removeChar ';' i)] }
  else if st.sample_plan_collect && !(pyIn "SampleTestPlan" i) then
    match (pySplitWs (removeChar ';' i)).mapM pyInt with
    | some row =>
      let cnt := st.count_rows + 1
      .ok { st with sample_test_plan := st.sample_test_plan ++ [row],
                    count_rows := cnt,
                    sample_plan_collect :=
                      if cnt = st.nrows then false else st.sample_plan_collect }
    | none => .error (.valueError i)
  else if st.classes_collect && !(pyIn "ClassLookup" i) then
    if st.count_rows = st.nrows then
      .ok { st with classes_collect := false }
    else
      match pySplitWs i with
      | [k, v] =>
        match pyInt k with
        | some kk =>
          .ok { st with class_lookup := dictInsert st.class_lookup kk (removeChar '"' v),
                        count_rows := st.count_rows + 1 }
        | none => .error (.valueError k)
      | _ => .error (.valueError i)
  else
    .ok st

/-- Model of `pd.DataFrame(defects, columns=cols).astype(float)` (source
line 360): every buffered row must have exactly one cell per declared
column, and every cell must convert to a float. -/
def buildDefectFrame (defects : List (List String)) (cols : List String) :
    Except KError DataFrame :=
  if defects.all (fun r => r.length == cols.length) then
    match defects.mapM (fun r => r.mapM pyFloat) with
    | some rows =>
      .ok ⟨cols.enum.map (fun ia => (ia.2, rows.map (fun r => r.getD ia.1 0)))⟩
    | none => .error (.valueError "astype")
  else .error .shapeError

/-- The payload assembly after the scan (source lines 359-366): non-empty
buffers are added to the payload and the constructor is invoked. -/
def finalize (st : ParseState) (now : ℕ) : Except KError WaferMap :=
  match (if st.defects.isEmpty then Except.ok st.payload
         else Except.map (fun df => { st.payload with defect_record := some df })
                (buildDefectFrame st.defects st.cols)) with
  | .error e => .error e
  | .ok p1 =>
    let p2 := if st.sample_test_plan.isEmpty then p1
              else { p1 with sample_test_plan := some st.sample_test_plan }
    let p3 := if st.class_lookup.isEmpty then p2
              else { p2 with class_lookup := some st.class_lookup }
    mkWaferMap p3 now

/-- Model of `WaferMap.read_klarf` (source lines 232-366): clean every
line (strip, drop `;` and `"`), run the line loop, assemble the payload
and construct the `WaferMap`.  `now` stands for the wall clock used by the
timestamp defaults. -/
def read_klarf (lines : List String) (now : ℕ) : Except KError WaferMap :=
  match (lines.map cleanLine).foldlM step initState with
  | .error e => .error e
  | .ok st => finalize st now

/-- The coordinate identity of the spec for one defect table under a given
pitch and center: rowwise, `XACTUAL = XINDEX * pitch.x + XREL - center.x`
and the Y analogue. -/
def coordIdentAt (d : DataFrame) (pitch center : ℚ × ℚ) : Prop :=
  (∀ i, i < (d.colD "_XACTUAL").length →
      (d.colD "_XACTUAL").getD i 0 =
        (d.colD "XINDEX").getD i 0 * pitch.1 + (d.colD "XREL").getD i 0 - center.1)
  ∧ (∀ i, i < (d.colD "_YACTUAL").length →
      (d.colD "_YACTUAL").getD i 0 =
        (d.colD "YINDEX").getD i 0 * pitch.2 + (d.colD "YREL").getD i 0 - center.2)

/-- The coordinate identity for a `WaferMap` state, read against its
currently stored pitch and center. -/
def WaferMap.coordInvariant (w : WaferMap) : Prop :=
  ∀ df, w.defect_list = some df → coordIdentAt df w.die_pitch w.center_location

/-- The frame `_update_relative_coordinates` leaves behind, given the
original frame and its `_XACTUAL`/`_YACTUAL` columns. -/
def rebuiltFrame (df : DataFrame) (ax ay : List ℚ) (newP newC : ℚ × ℚ) :
    DataFrame :=
  (((df.setCol "XREL" (ax.map fun a => pyMod (a + newC.1) newP.1)).setCol "YREL"
      (ay.map fun a => pyMod (a + newC.2) newP.2)).setCol "XINDEX"
      (ax.map fun a => (pyFloorDiv (a + newC.1) newP.1 : ℚ))).setCol "YINDEX"
      (ay.map fun a => (pyFloorDiv (a + newC.2) newP.2 : ℚ))

/-- The `WaferMap` produced by the constructor when every argument keeps
its default, with clock value `t`. -/
def default_wafermap (t : ℕ) : WaferMap :=
  { die_pitch := (10000, 10000), sample_size := 300000, die_origin := (0, 0),
    center_location := (150000, 150000), defect_list := none,
    file_version := "1 1", file_timestamp := .current t,
    inspection_station := "\"klarfkit\" \"v0.0.4\"", sample_type := "WAFER",
    result_timestamp := .current t, lot_id := "XXXX", setup_id := none,
    step_id := none, orientation_marker := "NOTCH", orientation := "DOWN",
    class_lookup := none, sample_test_plan := none, wafer_id := "XXXXXXXXXXX",
    slot := .pInt 1 }

/-- A small defect table with one defect at `XINDEX = YINDEX = 0`,
`XREL = YREL = 500`. -/
def df_small : DataFrame :=
  ⟨[("XINDEX", [0]), ("YINDEX", [0]), ("XREL", [500]), ("YREL", [500])]⟩

/-- The small table after `_calculate_actual_locations` with the default
geometry. -/
def df_small_actual : DataFrame :=
  (calculate_actual_locations df_small (10000, 10000) (150000, 150000)).toOption.getD ⟨[]⟩

/-- A `WaferMap` constructed from the small defect table with all other
arguments at their defaults. -/
def wafer_small : WaferMap :=
  (mkWaferMap { defect_record := some df_small } 0).toOption.getD (default_wafermap 0)

/-- The small map after assigning `die_pitch = (300, 300)`. -/
def wafer_small_rebased : WaferMap :=
  (set_die_pitch wafer_small (300, 300)).toOption.getD wafer_small

/-- The defect table of the rebased small map. -/
def df_small_rebased : DataFrame :=
  wafer_small_rebased.defect_list.getD ⟨[]⟩

/-- The small map after assigning `center_location = (140000, 151000)`. -/
def wafer_small_recentered : WaferMap :=
  (set_center_location wafer_small (140000, 151000)).toOption.getD wafer_small

/-- The defect table of the recentered small map. -/
def df_small_recentered : DataFrame :=
  wafer_small_recentered.defect_list.getD ⟨[]⟩

/-- The minimal KLARF file of the spec scenario. -/
def minimal_klarf_lines : List String :=
  ["SampleSize 300.000;", "DiePitch 10000 10000;",
   "CenterLocation 150000 150000;",
   "DefectRecordSpec 2 XINDEX YINDEX XREL YREL;", "DefectList;",
   "0 0 500 500;", "SummarySpec 0;"]

/-- A KLARF input with one defect row and no DiePitch or CenterLocation
statement.  The extra trailing X in the DefectRecordSpec line absorbs the
reader's final-character truncation, so the declared columns come out as
XINDEX YINDEX XREL YREL. -/
def missing_geometry_lines : List String :=
  ["DefectRecordSpec 4 XINDEX YINDEX XREL YRELX;", "DefectList;",
   "0 0 500 500;", "SummarySpec 0;"]

/-- The rebasing contract between the old and the new defect table under
pitch `P` and center `C`: the actual columns are numerically unchanged,
the four derived columns are recomputed with Python floor division and
sign-of-divisor modulo, and `XINDEX' * P.x + XREL' = XACTUAL + C.x`
rowwise (with the Y analogue). -/
def rebaseContract (df df' : DataFrame) (P C : ℚ × ℚ) : Prop :=
  df'.getCol "_XACTUAL" = df.getCol "_XACTUAL" ∧
  df'.getCol "_YACTUAL" = df.getCol "_YACTUAL" ∧
  df'.colD "XREL" = (df.colD "_XACTUAL").map (fun a => pyMod (a + C.1) P.1) ∧
  df'.colD "YREL" = (df.colD "_YACTUAL").map (fun a => pyMod (a + C.2) P.2) ∧
  df'.colD "XINDEX" =
    (df.colD "_XACTUAL").map (fun a => (pyFloorDiv (a + C.1) P.1 : ℚ)) ∧
  df'.colD "YINDEX" =
    (df.colD "_YACTUAL").map (fun a => (pyFloorDiv (a + C.2) P.2 : ℚ)) ∧
  (∀ i, i < (df'.colD "XINDEX").length →
      (df'.colD "XINDEX").getD i 0 * P.1 + (df'.colD "XREL").getD i 0 =
        (df.colD "_XACTUAL").getD i 0 + C.1) ∧
  (∀ i, i < (df'.colD "YINDEX").length →
      (df'.colD "YINDEX").getD i 0 * P.2 + (df'.colD "YREL").getD i 0 =
        (df.colD "_YACTUAL").getD i 0 + C.2)

/-- The floor used by `pyFloorDiv` is the mathematical floor. -/
theorem pyFloorDiv_eq_floor (a b : ℚ) : pyFloorDiv a b = ⌊a / b⌋ := by
  rw [pyFloorDiv, Rat.floor_def', ← Rat.floor_def]

/-- The identity linking Python floor division and modulo. -/
theorem pyFloorDiv_mul_add_pyMod (a b : ℚ) :
    (pyFloorDiv a b : ℚ) * b + pyMod a b = a := by
  unfold pyMod
  ring

theorem find_setColItems_self (name : String) (v : List ℚ)
    (items : List (String × List ℚ)) :
    (setColItems name v items).find? (fun p => p.1 == name) = some (name, v) := by
  induction items with
  | nil =>
    rw [setColItems]
    exact List.find?_cons_of_pos _ (by simp)
  | cons h t ih =>
    by_cases hn : h.1 = name
    · rw [setColItems, if_pos (by simp [hn])]
      exact List.find?_cons_of_pos _ (by simp)
    · rw [setColItems, if_neg (by simp [hn]),
        List.find?_cons_of_neg _ (by simp [hn])]
      exact ih

theorem find_setColItems_of_ne (name other : String) (v : List ℚ)
    (items : List (String × List ℚ)) (hne : name ≠ other) :
    (setColItems name v items).find? (fun p => p.1 == other) =
      items.find? (fun p => p.1 == other) := by
  induction items with
  | nil =>
    rw [setColItems, List.find?_cons_of_neg _ (by simp [hne])]
  | cons h t ih =>
    by_cases hn : h.1 = name
    · rw [setColItems, if_pos (by simp [hn]),
        List.find?_cons_of_neg _ (by simp [hne]),
        List.find?_cons_of_neg _ (by simp [hn, hne])]
    · rw [setColItems, if_neg (by simp [hn])]
      by_cases ho : h.1 = other
      · rw [List.find?_cons_of_pos _ (by simp [ho]),
          List.find?_cons_of_pos _ (by simp [ho])]
      · rw [List.find?_cons_of_neg _ (by simp [ho]),
          List.find?_cons_of_neg _ (by simp [ho])]
        exact ih

/-- Reading back a column just assigned. -/
theorem getCol_setCol_self (df : DataFrame) (name : String) (v : List ℚ) :
    (df.setCol name v).getCol name = some v := by
  simp [DataFrame.getCol, DataFrame.setCol, find_setColItems_self]

/-- Assigning one column leaves the others unchanged. -/
theorem getCol_setCol_of_ne (df : DataFrame) (name other : String) (v : List ℚ)
    (hne : name ≠ other) :
    (df.setCol name v).getCol other = df.getCol other := by
  simp [DataFrame.getCol, DataFrame.setCol, find_setColItems_of_ne _ _ _ _ hne]

theorem setColItems_eq_of_find (name : String) (v : List ℚ)
    (items : List (String × List ℚ))
    (h : items.find? (fun p => p.1 == name) = some (name, v)) :
    setColItems name v items = items := by
  induction items with
  | nil => simp at h
  | cons hd t ih =>
    by_cases hn : hd.1 = name
    · rw [List.find?_cons_of_pos _ (by simp [hn])] at h
      have hhd : hd = (name, v) := Option.some.inj h
      rw [setColItems, if_pos (by simp [hn]), hhd]
    · rw [List.find?_cons_of_neg _ (by simp [hn])] at h
      rw [setColItems, if_neg (by simp [hn]), ih h]

/-- Writing back the values a column already holds is the identity. -/
theorem setCol_eq_of_getCol (df : DataFrame) (name : String) (v : List ℚ)
    (h : df.getCol name = some v) : df.setCol name v = df := by
  rcases df with ⟨items⟩
  simp only [DataFrame.getCol] at h
  cases hf : items.find? (fun p => p.1 == name) with
  | none => rw [hf] at h; simp at h
  | some p =>
    rw [hf] at h
    simp only [Option.map_some', Option.some.injEq] at h
    have hname0 := List.find?_some hf
    have hname : p.1 = name := by simpa using hname0
    have hfind : items.find? (fun q => q.1 == name) = some (name, v) := by
      rw [hf]
      cases p with
      | mk a b =>
        simp only at h hname
        rw [hname, h]
    simp [DataFrame.setCol, setColItems_eq_of_find _ _ _ hfind]

/-- Element access for mapped lists under a default. -/
theorem getD_map_lt {f : ℚ → ℚ} (l : List ℚ) (i : ℕ) (h : i < l.length) :
    (l.map f).getD i 0 = f (l.getD i 0) := by
  induction l generalizing i with
  | nil => simp at h
  | cons a t ih =>
    cases i with
    | zero => simp
    | succ j =>
      simp only [List.map_cons, List.getD_cons_succ]
      exact ih j (by simpa using h)

/-- Element access for zipped lists under a default. -/
theorem getD_zipWith_lt {f : ℚ → ℚ → ℚ} (a b : List ℚ) (i : ℕ)
    (h : i < (List.zipWith f a b).length) :
    (List.zipWith f a b).getD i 0 = f (a.getD i 0) (b.getD i 0) := by
  induction a generalizing b i with
  | nil => simp at h
  | cons x xs ih =>
    cases b with
    | nil => simp at h
    | cons y ys =>
      cases i with
      | zero => simp
      | succ j =>
        simp only [List.zipWith_cons_cons, List.getD_cons_succ]
        exact ih ys j (by simpa using h)

/-- C8: assigning `die_origin` changes no other stored state: the defect
table, pitch, center and sample size (and every remaining attribute, by
the final full-record equation) are unchanged, and `die_origin` takes the
new value. -/
theorem die_origin_setter_frame (w : WaferMap) (v : ℚ × ℚ) :
    (set_die_origin w v).die_origin = v ∧
    (set_die_origin w v).defect_list = w.defect_list ∧
    (set_die_origin w v).die_pitch = w.die_pitch ∧
    (set_die_origin w v).center_location = w.center_location ∧
    (set_die_origin w v).sample_size = w.sample_size ∧
    set_die_origin w v = { w with die_origin := v } :=
  ⟨rfl, rfl, rfl, rfl, rfl, rfl⟩

/-- C3 (code bug): on the spec's minimal file the parse does not succeed.
The DefectRecordSpec handler drops the final character of the line (whose
terminator was already stripped), so the last declared column is recorded
as YRE and `_calculate_actual_locations` raises `KeyError: YREL`. -/
theorem minimal_file_parse_fails :
    read_klarf minimal_klarf_lines 0 = .error (.keyError "YREL") := rfl

/-- C4 (code bug): the DefectRecordSpec branch applies `i[:-1]` to a line
whose trailing `;` was already removed, so the final declared column name
loses its last character: YREL is stored as YRE rather than unaltered. -/
theorem defect_record_spec_truncates :
    step initState "DefectRecordSpec 2 XINDEX YINDEX XREL YREL" =
      .ok { initState with cols := ["XINDEX", "YINDEX", "XREL", "YRE"] } := rfl

/-- C9 counterexample: parsing an input with every field absent succeeds,
but the resulting map carries no `inspection_test` attribute at all, so it
does not carry the claimed default `inspection_test = 1`. -/
theorem inspection_test_not_stored :
    exceptIsOk (read_klarf [] 0) = true ∧
    (read_klarf [] 0).toOption.map (fun w => w.hasAttr "inspection_test") =
      some false :=
  ⟨rfl, rfl⟩

/-- C5 counterexample: an input whose DefectList section holds one defect
row and which contains no DiePitch and no CenterLocation line parses
successfully (one row in the ordinary XREL column), instead of failing
with a missing-geometry error. -/
theorem missing_geometry_succeeds :
    (missing_geometry_lines.map cleanLine).all
      (fun l => !(pyIn "DiePitch" l || pyIn "CenterLocation" l)) = true ∧
    exceptIsOk (read_klarf missing_geometry_lines 0) = true ∧
    (read_klarf missing_geometry_lines 0).toOption.map
      (fun w => ((w.defect_list.getD ⟨[]⟩).colD "XREL").length) = some 1 :=
  ⟨rfl, rfl, rfl⟩

/-- An update on a map without a defect table always errors: the scale
divisions only involve the pitch scalars, and the first subscript of the
`None` defect list raises `TypeError`. -/
theorem update_error_of_none (w : WaferMap) (a b c d : ℚ × ℚ)
    (h : w.defect_list = none) :
    exceptIsOk (update_relative_coordinates w a b c d) = false := by
  unfold update_relative_coordinates
  rw [h]
  split
  · rfl
  · split
    · rfl
    · rfl

/-- C10: on a map constructed without a defect table, assigning
`die_pitch` or `center_location` raises (TypeError from subscripting the
`None` defect list, or ZeroDivisionError first if a stored pitch entry is
zero); the assignment to the backing field is after the update call, so
the stored pitch and center keep their prior values. -/
theorem setters_error_without_defect_table (w : WaferMap) (p c : ℚ × ℚ)
    (h : w.defect_list = none) :
    exceptIsOk (set_die_pitch w p) = false ∧
    exceptIsOk (set_center_location w c) = false := by
  constructor
  · have h1 := update_error_of_none w w.die_pitch p
      w.center_location w.center_location h
    unfold set_die_pitch
    cases hu : update_relative_coordinates w w.die_pitch p
        w.center_location w.center_location with
    | error e => rfl
    | ok w1 => rw [hu] at h1; exact absurd h1 (by simp [exceptIsOk])
  · have h2 := update_error_of_none w w.die_pitch w.die_pitch
      w.center_location c h
    unfold set_center_location
    cases hu : update_relative_coordinates w w.die_pitch w.die_pitch
        w.center_location c with
    | error e => rfl
    | ok w1 => rw [hu] at h2; exact absurd h2 (by simp [exceptIsOk])

/-- Witness for C10 at the default map, which has no defect table. -/
theorem setters_error_without_defect_table_witness :
    exceptIsOk (set_die_pitch (default_wafermap 0) (5, 5)) = false ∧
    exceptIsOk (set_center_location (default_wafermap 0) (7, 7)) = false :=
  setters_error_without_defect_table (default_wafermap 0) (5, 5) (7, 7) rfl

/-- C6: constructing with an orientation marker whose upper-casing is
NOTCH or FLAT succeeds and stores the upper-cased marker; any other value
fails with the invalid-enum `ValueError`. -/
theorem orientation_marker_validation (s : String) (t : ℕ) :
    (pyUpper s = "NOTCH" ∨ pyUpper s = "FLAT" →
      mkWaferMap { orientation_marker := some s } t =
        .ok { default_wafermap t with orientation_marker := pyUpper s })
  ∧ (¬(pyUpper s = "NOTCH" ∨ pyUpper s = "FLAT") →
      mkWaferMap { orientation_marker := some s } t =
        .error (.invalidEnum (pyUpper s))) := by
  have key : mkWaferMap { orientation_marker := some s } t =
      if pyUpper s = "NOTCH" ∨ pyUpper s = "FLAT" then
        .ok { default_wafermap t with orientation_marker := pyUpper s }
      else .error (.invalidEnum (pyUpper s)) := rfl
  constructor
  · intro h; rw [key, if_pos h]
  · intro h; rw [key, if_neg h]

/-- Witness for C6: a mixed-case FLAT is accepted and normalized, a bogus
marker is rejected. -/
theorem orientation_marker_validation_witness :
    mkWaferMap { orientation_marker := some "fLaT" } 0 =
      .ok { default_wafermap 0 with orientation_marker := "FLAT" } ∧
    mkWaferMap { orientation_marker := some "BOGUS" } 0 =
      .error (.invalidEnum "BOGUS") := by
  constructor
  · have h := (orientation_marker_validation "fLaT" 0).1 (by decide)
    rw [show pyUpper "fLaT" = "FLAT" from by decide] at h
    exact h
  · have h := (orientation_marker_validation "BOGUS" 0).2 (by decide)
    rw [show pyUpper "BOGUS" = "BOGUS" from by decide] at h
    exact h

/-- C9 (amended): for every constructor field absent from the payload, a
successfully constructed map carries the documented default.  The
`inspection_test` parameter defaults to 1 but is accepted without being
stored, so the map carries no such attribute (see
`inspection_test_not_stored`). -/
theorem constructor_defaults (p : Payload) (t : ℕ) (w : WaferMap)
    (h1 : p.sample_center_location = none) (h2 : p.die_pitch = none)
    (h3 : p.die_origin = none) (h4 : p.orientation_marker = none)
    (h5 : p.orientation = none) (h6 : p.file_version = none)
    (h7 : p.inspection_station = none) (h8 : p.sample_type = none)
    (h9 : p.lot_id = none) (h10 : p.sample_size = none)
    (h11 : p.wafer_id = none) (h12 : p.slot = none)
    (h13 : p.file_timestamp = none) (h14 : p.result_timestamp = none)
    (hw : mkWaferMap p t = .ok w) :
    w.center_location = (150000, 150000) ∧ w.die_pitch = (10000, 10000) ∧
    w.die_origin = (0, 0) ∧ w.orientation_marker = "NOTCH" ∧
    w.orientation = "DOWN" ∧ w.file_version = "1 1" ∧
    w.inspection_station = "\"klarfkit\" \"v0.0.4\"" ∧ w.sample_type = "WAFER" ∧
    w.lot_id = "XXXX" ∧ w.sample_size = 300000 ∧ w.wafer_id = "XXXXXXXXXXX" ∧
    w.slot = .pInt 1 ∧ w.file_timestamp = .current t ∧
    w.result_timestamp = .current t ∧ w.hasAttr "inspection_test" = false := by
  cases hd : p.defect_record with
  | none =>
    have key : mkWaferMap p t = .ok
        { die_pitch := (10000, 10000), sample_size := 300000,
          die_origin := (0, 0), center_location := (150000, 150000),
          defect_list := none, file_version := "1 1",
          file_timestamp := .current t,
          inspection_station := "\"klarfkit\" \"v0.0.4\"",
          sample_type := "WAFER", result_timestamp := .current t,
          lot_id := "XXXX", setup_id := p.setup_id, step_id := p.step_id,
          orientation_marker := "NOTCH", orientation := "DOWN",
          class_lookup := p.class_lookup,
          sample_test_plan := p.sample_test_plan,
          wafer_id := "XXXXXXXXXXX", slot := .pInt 1 } := by
      unfold mkWaferMap
      rw [h1, h2, h3, h4, h5, h6, h7, h8, h9, h10, h11, h12, h13, h14, hd]
      rfl
    rw [key] at hw
    cases hw
    exact ⟨rfl, rfl, rfl, rfl, rfl, rfl, rfl, rfl, rfl, rfl, rfl, rfl, rfl,
      rfl, rfl⟩
  | some df =>
    cases hc : calculate_actual_locations df (10000, 10000) (150000, 150000) with
    | error e =>
      have key : mkWaferMap p t = .error e := by
        unfold mkWaferMap
        rw [h1, h2, h3, hd]
        simp only [Option.getD_none, pairOfList]
        rw [hc]
        rfl
      rw [key] at hw
      exact absurd hw (by simp)
    | ok d =>
      have key : mkWaferMap p t = .ok
          { die_pitch := (10000, 10000), sample_size := 300000,
            die_origin := (0, 0), center_location := (150000, 150000),
            defect_list := some d, file_version := "1 1",
            file_timestamp := .current t,
            inspection_station := "\"klarfkit\" \"v0.0.4\"",
            sample_type := "WAFER", result_timestamp := .current t,
            lot_id := "XXXX", setup_id := p.setup_id, step_id := p.step_id,
            orientation_marker := "NOTCH", orientation := "DOWN",
            class_lookup := p.class_lookup,
            sample_test_plan := p.sample_test_plan,
            wafer_id := "XXXXXXXXXXX", slot := .pInt 1 } := by
        unfold mkWaferMap
        rw [h1, h2, h3, h4, h5, h6, h7, h8, h9, h10, h11, h12, h13, h14, hd]
        simp only [Option.getD_none, pairOfList]
        rw [hc]
        rfl
      rw [key] at hw
      cases hw
      exact ⟨rfl, rfl, rfl, rfl, rfl, rfl, rfl, rfl, rfl, rfl, rfl, rfl, rfl,
        rfl, rfl⟩

/-- Witness for C9 at the empty payload and clock value 3. -/
theorem constructor_defaults_witness :
    (default_wafermap 3).center_location = (150000, 150000) ∧
    (default_wafermap 3).die_pitch = (10000, 10000) ∧
    (default_wafermap 3).die_origin = (0, 0) ∧
    (default_wafermap 3).orientation_marker = "NOTCH" ∧
    (default_wafermap 3).orientation = "DOWN" ∧
    (default_wafermap 3).file_version = "1 1" ∧
    (default_wafermap 3).inspection_station = "\"klarfkit\" \"v0.0.4\"" ∧
    (default_wafermap 3).sample_type = "WAFER" ∧
    (default_wafermap 3).lot_id = "XXXX" ∧
    (default_wafermap 3).sample_size = 300000 ∧
    (default_wafermap 3).wafer_id = "XXXXXXXXXXX" ∧
    (default_wafermap 3).slot = .pInt 1 ∧
    (default_wafermap 3).file_timestamp = .current 3 ∧
    (default_wafermap 3).result_timestamp = .current 3 ∧
    (default_wafermap 3).hasAttr "inspection_test" = false :=
  constructor_defaults {} 3 (default_wafermap 3) rfl rfl rfl rfl rfl rfl rfl
    rfl rfl rfl rfl rfl rfl rfl (by rfl)

/-- C5 (amended): a missing DiePitch or CenterLocation is not an error:
when both are absent and construction succeeds, the defaults
`(10000, 10000)` and `(150000, 150000)` are in force (and the actual
coordinates were computed from them). -/
theorem missing_geometry_defaults (p : Payload) (t : ℕ) (w : WaferMap)
    (hp : p.die_pitch = none) (hcl : p.sample_center_location = none)
    (hw : mkWaferMap p t = .ok w) :
    w.die_pitch = (10000, 10000) ∧ w.center_location = (150000, 150000) := by
  unfold mkWaferMap at hw
  rw [hp, hcl] at hw
  simp only [Option.getD_none, pairOfList] at hw
  repeat' split at hw
  all_goals cases hw
  all_goals exact ⟨rfl, rfl⟩

/-- Witness for C5 at the small defect table with no geometry given. -/
theorem missing_geometry_defaults_witness :
    wafer_small.die_pitch = (10000, 10000) ∧
    wafer_small.center_location = (150000, 150000) :=
  missing_geometry_defaults { defect_record := some df_small } 0 wafer_small
    rfl rfl (by rfl)

/-- Evaluation of the update on the successful path: with a defect table
holding `_XACTUAL`/`_YACTUAL` columns and nonzero pitches, the update
installs exactly the rebuilt frame. -/
theorem update_compute (w : WaferMap) (oldP newP oldC newC : ℚ × ℚ)
    (df : DataFrame) (ax ay : List ℚ)
    (hdl : w.defect_list = some df)
    (hax : df.getCol "_XACTUAL" = some ax)
    (hay : df.getCol "_YACTUAL" = some ay)
    (h1 : oldP.1 ≠ 0) (h2 : oldP.2 ≠ 0) (h3 : newP.1 ≠ 0) (h4 : newP.2 ≠ 0) :
    update_relative_coordinates w oldP newP oldC newC =
      .ok { w with defect_list := some (rebuiltFrame df ax ay newP newC) } := by
  have eA : ∀ u, (df.setCol "XREL" u).getCol "_YACTUAL" = df.getCol "_YACTUAL" :=
    fun u => getCol_setCol_of_ne _ _ _ _ (by decide)
  have eB : ∀ u u2,
      ((df.setCol "XREL" u).setCol "YREL" u2).getCol "_XACTUAL" =
        df.getCol "_XACTUAL" := fun u u2 => by
    rw [getCol_setCol_of_ne _ _ _ _ (by decide),
      getCol_setCol_of_ne _ _ _ _ (by decide)]
  have eC : ∀ u u2 u3,
      (((df.setCol "XREL" u).setCol "YREL" u2).setCol "XINDEX" u3).getCol
        "_YACTUAL" = df.getCol "_YACTUAL" := fun u u2 u3 => by
    rw [getCol_setCol_of_ne _ _ _ _ (by decide),
      getCol_setCol_of_ne _ _ _ _ (by decide),
      getCol_setCol_of_ne _ _ _ _ (by decide)]
  unfold update_relative_coordinates
  simp only [hdl, hax, eA, hay, eB, eC, if_neg h1, if_neg h2, if_neg h3,
    if_neg h4]
  rfl

/-- Structure of a successful update: it requires a defect table with
`_XACTUAL`/`_YACTUAL` columns and nonzero pitch components, and it
replaces the table by the rebuilt frame, touching nothing else. -/
theorem update_ok_struct {w : WaferMap} {oldP newP oldC newC : ℚ × ℚ}
    {w' : WaferMap}
    (h : update_relative_coordinates w oldP newP oldC newC = .ok w') :
    ∃ df ax ay,
      w.defect_list = some df ∧ df.getCol "_XACTUAL" = some ax ∧
      df.getCol "_YACTUAL" = some ay ∧ oldP.1 ≠ 0 ∧ oldP.2 ≠ 0 ∧
      newP.1 ≠ 0 ∧ newP.2 ≠ 0 ∧
      w' = { w with defect_list := some (rebuiltFrame df ax ay newP newC) } := by
  by_cases h1 : oldP.1 = 0
  · have hk : update_relative_coordinates w oldP newP oldC newC =
        .error .zeroDivisionError := by
      unfold update_relative_coordinates
      rw [if_pos h1]
    rw [hk] at h; cases h
  by_cases h2 : oldP.2 = 0
  · have hk : update_relative_coordinates w oldP newP oldC newC =
        .error .zeroDivisionError := by
      unfold update_relative_coordinates
      rw [if_neg h1, if_pos h2]
    rw [hk] at h; cases h
  cases hdl : w.defect_list with
  | none =>
    have hk : update_relative_coordinates w oldP newP oldC newC =
        .error .typeError := by
      unfold update_relative_coordinates
      simp only [hdl, if_neg h1, if_neg h2]
    rw [hk] at h; cases h
  | some df =>
    have eA : ∀ u, (df.setCol "XREL" u).getCol "_YACTUAL" =
        df.getCol "_YACTUAL" :=
      fun u => getCol_setCol_of_ne _ _ _ _ (by decide)
    cases hax : df.getCol "_XACTUAL" with
    | none =>
      have hk : update_relative_coordinates w oldP newP oldC newC =
          .error (.keyError "_XACTUAL") := by
        unfold update_relative_coordinates
        simp only [hdl, hax, if_neg h1, if_neg h2]
      rw [hk] at h; cases h
    | some ax =>
      by_cases h3 : newP.1 = 0
      · have hk : update_relative_coordinates w oldP newP oldC newC =
            .error .zeroDivisionError := by
          unfold update_relative_coordinates
          simp only [hdl, hax, if_neg h1, if_neg h2, if_pos h3]
        rw [hk] at h; cases h
      cases hay : df.getCol "_YACTUAL" with
      | none =>
        have hk : update_relative_coordinates w oldP newP oldC newC =
            .error (.keyError "_YACTUAL") := by
          unfold update_relative_coordinates
          simp only [hdl, hax, eA, hay, if_neg h1, if_neg h2, if_neg h3]
        rw [hk] at h; cases h
      | some ay =>
        by_cases h4 : newP.2 = 0
        · have hk : update_relative_coordinates w oldP newP oldC newC =
              .error .zeroDivisionError := by
            unfold update_relative_coordinates
            simp only [hdl, hax, eA, hay, if_neg h1, if_neg h2, if_neg h3,
              if_pos h4]
          rw [hk] at h; cases h
        · have hk := update_compute w oldP newP oldC newC df ax ay hdl hax
            hay h1 h2 h3 h4
          rw [hk] at h
          exact ⟨df, ax, ay, rfl, hax, hay, h1, h2, h3, h4,
            (Except.ok.inj h).symm⟩

/-- Structure of a successful `die_pitch` assignment. -/
theorem set_die_pitch_ok_struct {w : WaferMap} {v : ℚ × ℚ} {w' : WaferMap}
    (h : set_die_pitch w v = .ok w') :
    ∃ df ax ay,
      w.defect_list = some df ∧ df.getCol "_XACTUAL" = some ax ∧
      df.getCol "_YACTUAL" = some ay ∧ w.die_pitch.1 ≠ 0 ∧
      w.die_pitch.2 ≠ 0 ∧ v.1 ≠ 0 ∧ v.2 ≠ 0 ∧
      w' = { w with die_pitch := v,
                    defect_list :=
                      some (rebuiltFrame df ax ay v w.center_location) } := by
  unfold set_die_pitch at h
  cases hu : update_relative_coordinates w w.die_pitch v w.center_location
      w.center_location with
  | error e => rw [hu] at h; cases h
  | ok w1 =>
    rw [hu] at h
    replace h : Except.ok { w1 with die_pitch := v } = Except.ok w' := h
    obtain ⟨df, ax, ay, hdl, hax, hay, ho1, ho2, hn1, hn2, rfl⟩ :=
      update_ok_struct hu
    exact ⟨df, ax, ay, hdl, hax, hay, ho1, ho2, hn1, hn2,
      (Except.ok.inj h).symm⟩

/-- Structure of a successful `center_location` assignment. -/
theorem set_center_location_ok_struct {w : WaferMap} {v : ℚ × ℚ}
    {w' : WaferMap} (h : set_center_location w v = .ok w') :
    ∃ df ax ay,
      w.defect_list = some df ∧ df.getCol "_XACTUAL" = some ax ∧
      df.getCol "_YACTUAL" = some ay ∧ w.die_pitch.1 ≠ 0 ∧
      w.die_pitch.2 ≠ 0 ∧
      w' = { w with center_location := v,
                    defect_list :=
                      some (rebuiltFrame df ax ay w.die_pitch v) } := by
  unfold set_center_location at h
  cases hu : update_relative_coordinates w w.die_pitch w.die_pitch
      w.center_location v with
  | error e => rw [hu] at h; cases h
  | ok w1 =>
    rw [hu] at h
    replace h : Except.ok { w1 with center_location := v } = Except.ok w' := h
    obtain ⟨df, ax, ay, hdl, hax, hay, ho1, ho2, _, _, rfl⟩ :=
      update_ok_struct hu
    exact ⟨df, ax, ay, hdl, hax, hay, ho1, ho2, (Except.ok.inj h).symm⟩

/-- The `_XACTUAL` column survives the rebuild unchanged. -/
theorem rebuiltFrame_getCol_XACTUAL (df : DataFrame) (ax ay : List ℚ)
    (P C : ℚ × ℚ) (h : df.getCol "_XACTUAL" = some ax) :
    (rebuiltFrame df ax ay P C).getCol "_XACTUAL" = some ax := by
  unfold rebuiltFrame
  rw [getCol_setCol_of_ne _ _ _ _ (by decide),
    getCol_setCol_of_ne _ _ _ _ (by decide),
    getCol_setCol_of_ne _ _ _ _ (by decide),
    getCol_setCol_of_ne _ _ _ _ (by decide), h]

/-- The `_YACTUAL` column survives the rebuild unchanged. -/
theorem rebuiltFrame_getCol_YACTUAL (df : DataFrame) (ax ay : List ℚ)
    (P C : ℚ × ℚ) (h : df.getCol "_YACTUAL" = some ay) :
    (rebuiltFrame df ax ay P C).getCol "_YACTUAL" = some ay := by
  unfold rebuiltFrame
  rw [getCol_setCol_of_ne _ _ _ _ (by decide),
    getCol_setCol_of_ne _ _ _ _ (by decide),
    getCol_setCol_of_ne _ _ _ _ (by decide),
    getCol_setCol_of_ne _ _ _ _ (by decide), h]

/-- The rebuilt `XREL` column. -/
theorem rebuiltFrame_getCol_XREL (df : DataFrame) (ax ay : List ℚ)
    (P C : ℚ × ℚ) :
    (rebuiltFrame df ax ay P C).getCol "XREL" =
      some (ax.map fun a => pyMod (a + C.1) P.1) := by
  unfold rebuiltFrame
  rw [getCol_setCol_of_ne _ _ _ _ (by decide),
    getCol_setCol_of_ne _ _ _ _ (by decide),
    getCol_setCol_of_ne _ _ _ _ (by decide), getCol_setCol_self]

/-- The rebuilt `YREL` column. -/
theorem rebuiltFrame_getCol_YREL (df : DataFrame) (ax ay : List ℚ)
    (P C : ℚ × ℚ) :
    (rebuiltFrame df ax ay P C).getCol "YREL" =
      some (ay.map fun a => pyMod (a + C.2) P.2) := by
  unfold rebuiltFrame
  rw [getCol_setCol_of_ne _ _ _ _ (by decide),
    getCol_setCol_of_ne _ _ _ _ (by decide), getCol_setCol_self]

/-- The rebuilt `XINDEX` column. -/
theorem rebuiltFrame_getCol_XINDEX (df : DataFrame) (ax ay : List ℚ)
    (P C : ℚ × ℚ) :
    (rebuiltFrame df ax ay P C).getCol "XINDEX" =
      some (ax.map fun a => (pyFloorDiv (a + C.1) P.1 : ℚ)) := by
  unfold rebuiltFrame
  rw [getCol_setCol_of_ne _ _ _ _ (by decide), getCol_setCol_self]

/-- The rebuilt `YINDEX` column. -/
theorem rebuiltFrame_getCol_YINDEX (df : DataFrame) (ax ay : List ℚ)
    (P C : ℚ × ℚ) :
    (rebuiltFrame df ax ay P C).getCol "YINDEX" =
      some (ay.map fun a => (pyFloorDiv (a + C.2) P.2 : ℚ)) := by
  unfold rebuiltFrame
  rw [getCol_setCol_self]

/-- A rebuilt frame satisfies the coordinate identity for the geometry it
was rebuilt against. -/
theorem coordIdent_rebuiltFrame (df : DataFrame) (ax ay : List ℚ)
    (P C : ℚ × ℚ) (hax : df.getCol "_XACTUAL" = some ax)
    (hay : df.getCol "_YACTUAL" = some ay) :
    coordIdentAt (rebuiltFrame df ax ay P C) P C := by
  constructor
  · intro i hi
    simp only [DataFrame.colD, rebuiltFrame_getCol_XACTUAL df ax ay P C hax,
      rebuiltFrame_getCol_XINDEX df ax ay P C,
      rebuiltFrame_getCol_XREL df ax ay P C, Option.getD_some] at hi ⊢
    rw [getD_map_lt ax i hi, getD_map_lt ax i hi]
    simp only [pyMod]
    ring
  · intro i hi
    simp only [DataFrame.colD, rebuiltFrame_getCol_YACTUAL df ax ay P C hay,
      rebuiltFrame_getCol_YINDEX df ax ay P C,
      rebuiltFrame_getCol_YREL df ax ay P C, Option.getD_some] at hi ⊢
    rw [getD_map_lt ay i hi, getD_map_lt ay i hi]
    simp only [pyMod]
    ring

/-- The frame `_calculate_actual_locations` returns satisfies the
coordinate identity for the pitch and center it was given. -/
theorem coordIdent_calcFrame (df : DataFrame) (xi xr yi yr : List ℚ)
    (p c : ℚ × ℚ) (hxi : df.getCol "XINDEX" = some xi)
    (hxr : df.getCol "XREL" = some xr)
    (hyi : (df.setCol "_XACTUAL"
        (List.zipWith (fun a b => a * p.1 + b - c.1) xi xr)).getCol "YINDEX" =
      some yi)
    (hyr : (df.setCol "_XACTUAL"
        (List.zipWith (fun a b => a * p.1 + b - c.1) xi xr)).getCol "YREL" =
      some yr) :
    coordIdentAt
      ((df.setCol "_XACTUAL"
          (List.zipWith (fun a b => a * p.1 + b - c.1) xi xr)).setCol
        "_YACTUAL" (List.zipWith (fun a b => a * p.2 + b - c.2) yi yr)) p c := by
  constructor
  · intro i hi
    have e1 : ((df.setCol "_XACTUAL"
          (List.zipWith (fun a b => a * p.1 + b - c.1) xi xr)).setCol
            "_YACTUAL"
            (List.zipWith (fun a b => a * p.2 + b - c.2) yi yr)).getCol
          "_XACTUAL" =
        some (List.zipWith (fun a b => a * p.1 + b - c.1) xi xr) := by
      rw [getCol_setCol_of_ne _ _ _ _ (by decide), getCol_setCol_self]
    have e2 : ((df.setCol "_XACTUAL"
          (List.zipWith (fun a b => a * p.1 + b - c.1) xi xr)).setCol
            "_YACTUAL"
            (List.zipWith (fun a b => a * p.2 + b - c.2) yi yr)).getCol
          "XINDEX" = some xi := by
      rw [getCol_setCol_of_ne _ _ _ _ (by decide),
        getCol_setCol_of_ne _ _ _ _ (by decide), hxi]
    have e3 : ((df.setCol "_XACTUAL"
          (List.zipWith (fun a b => a * p.1 + b - c.1) xi xr)).setCol
            "_YACTUAL"
            (List.zipWith (fun a b => a * p.2 + b - c.2) yi yr)).getCol
          "XREL" = some xr := by
      rw [getCol_setCol_of_ne _ _ _ _ (by decide),
        getCol_setCol_of_ne _ _ _ _ (by decide), hxr]
    simp only [DataFrame.colD, e1, e2, e3, Option.getD_some] at hi ⊢
    rw [getD_zipWith_lt xi xr i hi]
  · intro i hi
    have e4 : ((df.setCol "_XACTUAL"
          (List.zipWith (fun a b => a * p.1 + b - c.1) xi xr)).setCol
            "_YACTUAL"
            (List.zipWith (fun a b => a * p.2 + b - c.2) yi yr)).getCol
          "_YACTUAL" =
        some (List.zipWith (fun a b => a * p.2 + b - c.2) yi yr) :=
      getCol_setCol_self _ _ _
    have e5 : ((df.setCol "_XACTUAL"
          (List.zipWith (fun a b => a * p.1 + b - c.1) xi xr)).setCol
            "_YACTUAL"
            (List.zipWith (fun a b => a * p.2 + b - c.2) yi yr)).getCol
          "YINDEX" = some yi := by
      rw [getCol_setCol_of_ne _ _ _ _ (by decide)]
      exact hyi
    have e6 : ((df.setCol "_XACTUAL"
          (List.zipWith (fun a b => a * p.1 + b - c.1) xi xr)).setCol
            "_YACTUAL"
            (List.zipWith (fun a b => a * p.2 + b - c.2) yi yr)).getCol
          "YREL" = some yr := by
      rw [getCol_setCol_of_ne _ _ _ _ (by decide)]
      exact hyr
    simp only [DataFrame.colD, e4, e5, e6, Option.getD_some] at hi ⊢
    rw [getD_zipWith_lt yi yr i hi]

/-- C1: the coordinate identity `XACTUAL = XINDEX * pitch.x + XREL -
center.x` (and the Y analogue) holds for every row immediately after
`_calculate_actual_locations` defines the actual columns, and against the
new geometry after any successful assignment to `die_pitch` or
`center_location` (exactly over ℚ; Python floats satisfy it up to
floating-point tolerance). -/
theorem coordinate_identity :
    (∀ df p c d, calculate_actual_locations df p c = .ok d →
      coordIdentAt d p c)
  ∧ (∀ w v w', set_die_pitch w v = .ok w' → WaferMap.coordInvariant w')
  ∧ (∀ w v w', set_center_location w v = .ok w' →
      WaferMap.coordInvariant w') := by
  refine ⟨?_, ?_, ?_⟩
  · intro df p c d h
    cases hxi : df.getCol "XINDEX" with
    | none =>
      have hk : calculate_actual_locations df p c =
          .error (.keyError "XINDEX") := by
        unfold calculate_actual_locations
        simp only [hxi]
      rw [hk] at h; cases h
    | some xi =>
      cases hxr : df.getCol "XREL" with
      | none =>
        have hk : calculate_actual_locations df p c =
            .error (.keyError "XREL") := by
          unfold calculate_actual_locations
          simp only [hxi, hxr]
        rw [hk] at h; cases h
      | some xr =>
        cases hyi : (df.setCol "_XACTUAL"
            (List.zipWith (fun a b => a * p.1 + b - c.1) xi xr)).getCol
            "YINDEX" with
        | none =>
          have hk : calculate_actual_locations df p c =
              .error (.keyError "YINDEX") := by
            unfold calculate_actual_locations
            simp only [hxi, hxr, hyi]
          rw [hk] at h; cases h
        | some yi =>
          cases hyr : (df.setCol "_XACTUAL"
              (List.zipWith (fun a b => a * p.1 + b - c.1) xi xr)).getCol
              "YREL" with
          | none =>
            have hk : calculate_actual_locations df p c =
                .error (.keyError "YREL") := by
              unfold calculate_actual_locations
              simp only [hxi, hxr, hyi, hyr]
            rw [hk] at h; cases h
          | some yr =>
            have hk : calculate_actual_locations df p c =
                .ok ((df.setCol "_XACTUAL"
                    (List.zipWith (fun a b => a * p.1 + b - c.1) xi xr)).setCol
                  "_YACTUAL"
                  (List.zipWith (fun a b => a * p.2 + b - c.2) yi yr)) := by
              unfold calculate_actual_locations
              simp only [hxi, hxr, hyi, hyr]
            rw [hk] at h
            obtain rfl := Except.ok.inj h
            exact coordIdent_calcFrame df xi xr yi yr p c hxi hxr hyi hyr
  · intro w v w' h df' hdf'
    obtain ⟨df, ax, ay, hdl, hax, hay, _, _, _, _, rfl⟩ :=
      set_die_pitch_ok_struct h
    replace hdf' : some (rebuiltFrame df ax ay v w.center_location) =
        some df' := hdf'
    cases hdf'
    exact coordIdent_rebuiltFrame df ax ay v w.center_location hax hay
  · intro w v w' h df' hdf'
    obtain ⟨df, ax, ay, hdl, hax, hay, _, _, rfl⟩ :=
      set_center_location_ok_struct h
    replace hdf' : some (rebuiltFrame df ax ay w.die_pitch v) =
        some df' := hdf'
    cases hdf'
    exact coordIdent_rebuiltFrame df ax ay w.die_pitch v hax hay

/-- Witness for C1: the small table after construction and the small map
after a pitch and after a center assignment. -/
theorem coordinate_identity_witness :
    coordIdentAt df_small_actual (10000, 10000) (150000, 150000) ∧
    WaferMap.coordInvariant wafer_small_rebased ∧
    WaferMap.coordInvariant wafer_small_recentered :=
  ⟨coordinate_identity.1 df_small (10000, 10000) (150000, 150000)
      df_small_actual rfl,
   coordinate_identity.2.1 wafer_small (300, 300) wafer_small_rebased
      (by rfl),
   coordinate_identity.2.2 wafer_small (140000, 151000)
      wafer_small_recentered (by rfl)⟩

/-- The rebuilt frame realizes the rebasing contract. -/
theorem rebaseContract_rebuiltFrame (df : DataFrame) (ax ay : List ℚ)
    (P C : ℚ × ℚ) (hax : df.getCol "_XACTUAL" = some ax)
    (hay : df.getCol "_YACTUAL" = some ay) :
    rebaseContract df (rebuiltFrame df ax ay P C) P C := by
  refine ⟨?_, ?_, ?_, ?_, ?_, ?_, ?_, ?_⟩
  · rw [rebuiltFrame_getCol_XACTUAL df ax ay P C hax, hax]
  · rw [rebuiltFrame_getCol_YACTUAL df ax ay P C hay, hay]
  · simp only [DataFrame.colD, rebuiltFrame_getCol_XREL df ax ay P C, hax,
      Option.getD_some]
  · simp only [DataFrame.colD, rebuiltFrame_getCol_YREL df ax ay P C, hay,
      Option.getD_some]
  · simp only [DataFrame.colD, rebuiltFrame_getCol_XINDEX df ax ay P C, hax,
      Option.getD_some]
  · simp only [DataFrame.colD, rebuiltFrame_getCol_YINDEX df ax ay P C, hay,
      Option.getD_some]
  · intro i hi
    simp only [DataFrame.colD, rebuiltFrame_getCol_XINDEX df ax ay P C,
      rebuiltFrame_getCol_XREL df ax ay P C, hax, Option.getD_some,
      List.length_map] at hi ⊢
    rw [getD_map_lt ax i hi, getD_map_lt ax i hi]
    simp only [pyMod]
    ring
  · intro i hi
    simp only [DataFrame.colD, rebuiltFrame_getCol_YINDEX df ax ay P C,
      rebuiltFrame_getCol_YREL df ax ay P C, hay, Option.getD_some,
      List.length_map] at hi ⊢
    rw [getD_map_lt ay i hi, getD_map_lt ay i hi]
    simp only [pyMod]
    ring

/-- C2: a successful `die_pitch` or `center_location` assignment keeps
every row's `_XACTUAL`/`_YACTUAL` and recomputes the four derived columns
from them by Python floor division and sign-of-divisor modulo against the
new geometry, so that `XINDEX' * newPitch.x + XREL' = XACTUAL + newCenter.x`
for every row (exactly over ℚ). -/
theorem rebase_contract :
    (∀ w v w' df df', w.defect_list = some df → set_die_pitch w v = .ok w' →
        w'.defect_list = some df' →
        rebaseContract df df' v w.center_location)
  ∧ (∀ w v w' df df', w.defect_list = some df →
        set_center_location w v = .ok w' → w'.defect_list = some df' →
        rebaseContract df df' w.die_pitch v) := by
  constructor
  · intro w v w' df df' hdf h hdf'
    obtain ⟨df0, ax, ay, hdl0, hax, hay, _, _, _, _, rfl⟩ :=
      set_die_pitch_ok_struct h
    rw [hdf] at hdl0
    cases hdl0
    replace hdf' : some (rebuiltFrame df ax ay v w.center_location) =
        some df' := hdf'
    cases hdf'
    exact rebaseContract_rebuiltFrame df ax ay v w.center_location hax hay
  · intro w v w' df df' hdf h hdf'
    obtain ⟨df0, ax, ay, hdl0, hax, hay, _, _, rfl⟩ :=
      set_center_location_ok_struct h
    rw [hdf] at hdl0
    cases hdl0
    replace hdf' : some (rebuiltFrame df ax ay w.die_pitch v) =
        some df' := hdf'
    cases hdf'
    exact rebaseContract_rebuiltFrame df ax ay w.die_pitch v hax hay

/-- Witness for C2 on the small map, for both setters. -/
theorem rebase_contract_witness :
    rebaseContract df_small_actual df_small_rebased (300, 300)
      (150000, 150000) ∧
    rebaseContract df_small_actual df_small_recentered (10000, 10000)
      (140000, 151000) :=
  ⟨rebase_contract.1 wafer_small (300, 300) wafer_small_rebased
      df_small_actual df_small_rebased (by rfl) (by rfl) (by rfl),
   rebase_contract.2 wafer_small (140000, 151000) wafer_small_recentered
      df_small_actual df_small_recentered (by rfl) (by rfl) (by rfl)⟩

/-- Rebuilding a rebuilt frame with the same actual columns, pitch and
center changes nothing: every column write deposits the values already
present. -/
theorem rebuiltFrame_idem (df : DataFrame) (ax ay : List ℚ) (P C : ℚ × ℚ) :
    rebuiltFrame (rebuiltFrame df ax ay P C) ax ay P C =
      rebuiltFrame df ax ay P C := by
  have e1 := setCol_eq_of_getCol _ _ _ (rebuiltFrame_getCol_XREL df ax ay P C)
  have e2 := setCol_eq_of_getCol _ _ _ (rebuiltFrame_getCol_YREL df ax ay P C)
  have e3 := setCol_eq_of_getCol _ _ _ (rebuiltFrame_getCol_XINDEX df ax ay P C)
  have e4 := setCol_eq_of_getCol _ _ _ (rebuiltFrame_getCol_YINDEX df ax ay P C)
  show ((((rebuiltFrame df ax ay P C).setCol "XREL"
        (ax.map fun a => pyMod (a + C.1) P.1)).setCol "YREL"
        (ay.map fun a => pyMod (a + C.2) P.2)).setCol "XINDEX"
        (ax.map fun a => (pyFloorDiv (a + C.1) P.1 : ℚ))).setCol "YINDEX"
        (ay.map fun a => (pyFloorDiv (a + C.2) P.2 : ℚ)) =
      rebuiltFrame df ax ay P C
  rw [e1, e2, e3, e4]

/-- C7: assigning `die_pitch = p` a second time immediately after a first
successful assignment of the same `p` returns exactly the state after the
first assignment: every `XINDEX`/`YINDEX`/`XREL`/`YREL` and
`_XACTUAL`/`_YACTUAL` value (and everything else) is unchanged. -/
theorem set_die_pitch_idempotent (w : WaferMap) (p : ℚ × ℚ) (w1 : WaferMap)
    (h : set_die_pitch w p = .ok w1) : set_die_pitch w1 p = .ok w1 := by
  obtain ⟨df, ax, ay, hdl, hax, hay, ho1, ho2, hn1, hn2, rfl⟩ :=
    set_die_pitch_ok_struct h
  have hu := update_compute
    { w with die_pitch := p,
             defect_list := some (rebuiltFrame df ax ay p w.center_location) }
    p p w.center_location w.center_location
    (rebuiltFrame df ax ay p w.center_location) ax ay rfl
    (rebuiltFrame_getCol_XACTUAL df ax ay p w.center_location hax)
    (rebuiltFrame_getCol_YACTUAL df ax ay p w.center_location hay)
    hn1 hn2 hn1 hn2
  have hp1 : ({ w with
                die_pitch := p,
                defect_list :=
                  some (rebuiltFrame df ax ay p w.center_location) } :
      WaferMap).die_pitch = p := rfl
  have hp2 : ({ w with
                die_pitch := p,
                defect_list :=
                  some (rebuiltFrame df ax ay p w.center_location) } :
      WaferMap).center_location = w.center_location := rfl
  unfold set_die_pitch
  rw [hp1, hp2, hu, rebuiltFrame_idem df ax ay p w.center_location]

/-- Witness for C7: repeating the pitch assignment on the small map. -/
theorem set_die_pitch_idempotent_witness :
    set_die_pitch wafer_small_rebased (300, 300) = .ok wafer_small_rebased :=
  set_die_pitch_idempotent wafer_small (300, 300) wafer_small_rebased (by rfl)

end Klarfkit

